import Mathlib

/-!
Verification development for the SuryaSaathi rooftop-solar verification
backend (repository AlgoMinds-SuryaSaathi).

The definitions below are a shallow embedding of the Python sources:

* `backend/services/ml_pipeline.py` — orchestrator, weighted aggregator,
  decision engine, final persistence step;
* `backend/services/satellite_analysis.py` — satellite check;
* `backend/services/equipment_check.py` — equipment check;
* `deliverables/pipeline_code/services/photo_forensics.py` — GPS and shadow
  checks (the backend imports `services.photo_forensics`; the file is present
  in the repository only under `deliverables/pipeline_code`);
* `deliverables/pipeline_code/services/satellite_analysis.py` — deliverables
  variant of the satellite check (weighted score field);
* `backend/api/endpoints/applications.py` — verification-submission endpoint;
* `deliverables/pipeline_code/core/config.py` — weights and thresholds.

Python floats are modelled as rationals.  External collaborators (file
storage, EXIF extraction, solar-position computation, satellite image
fetching, YOLO inference, OCR) are modelled as explicit inputs gathered in a
`World` record; an uncaught Python exception is modelled as `Except.error`.
String `details` fields keep the source's leading sentence, with numeric
interpolations elided.
-/

/-! ## Configuration (`deliverables/pipeline_code/core/config.py`) -/

def WEIGHT_GPS_MATCH : ℚ := 30/100

def WEIGHT_SATELLITE_ANALYSIS : ℚ := 30/100

def WEIGHT_EQUIPMENT_CHECK : ℚ := 20/100

def WEIGHT_SHADOW_ANALYSIS : ℚ := 20/100

def THRESHOLD_AUTO_APPROVE : ℚ := 85/100

def THRESHOLD_MANUAL_REVIEW : ℚ := 60/100

/-- A configuration of the four check-category weights (the four
`WEIGHT_*` fields of `Settings`). -/
structure WeightConfig where
  wGps : ℚ
  wShadow : ℚ
  wSatellite : ℚ
  wEquipment : ℚ
deriving DecidableEq

/-- The configured weights of `Settings`. -/
def settingsWeights : WeightConfig :=
  ⟨WEIGHT_GPS_MATCH, WEIGHT_SHADOW_ANALYSIS, WEIGHT_SATELLITE_ANALYSIS, WEIGHT_EQUIPMENT_CHECK⟩

/-! ## Data model (`backend/models/application.py`) -/

/-- `MetricScore`: one verification metric. -/
structure MetricScore where
  score : ℚ
  details : String
deriving DecidableEq

/-- `ShadowAnalysisResult`. -/
structure ShadowAnalysisResult where
  score : ℚ
  details : String
  expected_sun_azimuth : Option ℚ
  expected_sun_elevation : Option ℚ
  detected_shadow_angle : Option ℚ
deriving DecidableEq

/-- `SatelliteAnalysisResult`. -/
structure SatelliteAnalysisResult where
  score : ℚ
  details : String
  pre_install_panel_count : ℕ
  post_install_panel_count : ℕ
  yolo_confidence : ℚ
deriving DecidableEq

/-- `EquipmentCheckResult`. -/
structure EquipmentCheckResult where
  score : ℚ
  details : String
  detected_serials : List String
  verified_serials : List String
deriving DecidableEq

/-- `VerificationReport`: the four check results plus the aggregate decision. -/
structure VerificationReport where
  gps_check : MetricScore
  shadow_analysis : ShadowAnalysisResult
  satellite_analysis : SatelliteAnalysisResult
  equipment_check : EquipmentCheckResult
  confidence_score : ℚ
  decision : String
  reasoning : String
deriving DecidableEq

/-- The persisted application document — the fields the pipeline and the
submission endpoint read or write (`ApplicationModel` and the documents
built in `backend/api/endpoints/applications.py`; fields not touched by any
claim, such as the energy prediction and the photo metadata, are elided). -/
structure AppDoc where
  id : String
  registered_lat : ℚ
  registered_lon : ℚ
  declared_panel_count : ℕ
  status : String
  report : Option VerificationReport
deriving DecidableEq

/-- An uncaught Python exception escaping a check into the orchestrator. -/
inductive Fault
  | unpackValueError
  | fileNotFound
  | yoloFault
deriving DecidableEq

/-! `Fault.unpackValueError`: on `FileNotFoundError`, `gps_check` returns a
3-tuple (`photo_forensics.py` line 55) while the call site in
`ml_pipeline.py` line 82 unpacks four values, so the call raises
`ValueError`.  `Fault.fileNotFound`: `get_file_content` raising outside any
try block (`shadow_analysis_check`, `photo_forensics.py` line 105).
`Fault.yoloFault`: an unexpected internal failure of YOLO inference
(`satellite_analysis.py` line 87, outside any try block). -/

/-! ## The four checks -/

/-- `gps_check` (`deliverables/pipeline_code/services/photo_forensics.py`
lines 40-75).  The source simulates EXIF extraction: the detected position
is the registered one plus 0.0001 on each axis and the distance is a fixed
15 m.  On a missing photo the source's 3-tuple return makes the caller's
4-way unpacking raise, modelled as `Fault.unpackValueError`. -/
def gps_check (photoFound : Bool) (registered_lat registered_lon : ℚ)
    (exifCaptureTime : String) (threshold_m : ℚ) :
    Except Fault (MetricScore × ℚ × ℚ × String) :=
  if photoFound = false then Except.error Fault.unpackValueError
  else
    let detected_lat := registered_lat + 1/10000
    let detected_lon := registered_lon + 1/10000
    let distance : ℚ := 15
    if distance ≤ threshold_m then
      Except.ok (⟨1, "GPS location verified."⟩, detected_lat, detected_lon, exifCaptureTime)
    else
      Except.ok (⟨0, "GPS mismatch detected."⟩, detected_lat, detected_lon, exifCaptureTime)

/-- `shadow_analysis_check` (`photo_forensics.py` lines 78-132).  A failing
solar-position computation is caught and degraded to score 0.0; the photo
load that follows it is NOT inside a try block, so a missing photo raises.
The detected shadow angle is the expected azimuth plus a simulated noise
term, passed in here as `shadowNoise`. -/
def shadow_analysis_check (solposOk : Bool) (expectedAzimuth expectedElevation : ℚ)
    (photoFound : Bool) (shadowNoise : ℚ) :
    Except Fault ShadowAnalysisResult :=
  if solposOk = false then
    Except.ok ⟨0, "Failed to calculate expected solar position.", none, none, none⟩
  else if photoFound = false then
    Except.error Fault.fileNotFound
  else
    let detected := expectedAzimuth + shadowNoise
    let angle_difference := |expectedAzimuth - detected|
    if angle_difference < 10 then
      Except.ok ⟨1, "Shadow angle matches solar position.",
        some expectedAzimuth, some expectedElevation, some detected⟩
    else if angle_difference < 30 then
      Except.ok ⟨7/10, "Shadow angle deviated significantly.",
        some expectedAzimuth, some expectedElevation, some detected⟩
    else
      Except.ok ⟨2/10, "Major shadow angle mismatch.",
        some expectedAzimuth, some expectedElevation, some detected⟩

/-- The count-comparison scoring rule of the backend `satellite_verification`
(`backend/services/satellite_analysis.py` lines 157-177), returning the raw
score and the leading sentence of the `details` string.  The second branch
is the source's `pre_count > 0 and (post_count - pre_count) < 0`. -/
def satellite_scoring (pre_count post_count declared_panel_count : ℕ) : ℚ × String :=
  if post_count = 0 then
    ⟨0, "YOLO did not detect any panels in the post-installation image."⟩
  else if 0 < pre_count ∧ (post_count : ℤ) - (pre_count : ℤ) < 0 then
    ⟨1/10, "Suspicious activity: Panel count decreased."⟩
  else
    let count_diff := ((post_count : ℤ) - (declared_panel_count : ℤ)).natAbs
    if count_diff ≤ 2 then ⟨1, "Panel count verified."⟩
    else if count_diff ≤ 10 then ⟨8/10, "Panel count is close."⟩
    else ⟨5/10, "Significant panel count mismatch."⟩

/-- `satellite_verification` (`backend/services/satellite_analysis.py` lines
120-187).  `get_sentinel_image` catches its own exceptions — any failure
there, a timeout included, yields `None`, modelled by the fetch flags being
`false`.  `run_yolo_detection` handles a missing model or an undecodable
image internally but lets an inference exception escape, modelled by the
`Except Fault` inputs. -/
def satellite_verification (preImageFetched postImageFetched : Bool)
    (yoloPre yoloPost : Except Fault (ℕ × ℚ × ℚ))
    (declared_panel_count : ℕ) :
    Except Fault SatelliteAnalysisResult :=
  if preImageFetched = false then
    Except.ok ⟨0, "Failed to fetch pre-installation satellite image.", 0, 0, 0⟩
  else
    match yoloPre with
    | Except.error f => Except.error f
    | Except.ok (pre_count, _pre_conf, _pre_area) =>
      if postImageFetched = false then
        Except.ok ⟨0, "Failed to fetch post-installation satellite image.", pre_count, 0, 0⟩
      else
        match yoloPost with
        | Except.error f => Except.error f
        | Except.ok (post_count, post_conf, _post_area) =>
          let sd := satellite_scoring pre_count post_count declared_panel_count
          Except.ok ⟨sd.1, sd.2, pre_count, post_count, post_conf⟩

/-- The placeholder ALMM registry of `backend/services/equipment_check.py`
lines 35-39 (its keys). -/
def ALMM_APPROVED_LIST : List String := ["SERIAL-123456", "SERIAL-987654"]

/-- `check_almm_list` (`equipment_check.py` lines 76-99). -/
def check_almm_list (detected_serials : List String) : MetricScore × List String :=
  let verified_serials := detected_serials.filter (fun s => ALMM_APPROVED_LIST.contains s)
  if detected_serials.isEmpty then
    ⟨⟨1/10, "No legible text/serial numbers could be extracted from the image."⟩, verified_serials⟩
  else if verified_serials.length = detected_serials.length ∧ 0 < verified_serials.length then
    ⟨⟨1, "All detected serial numbers match the ALMM approved list."⟩, verified_serials⟩
  else if 0 < verified_serials.length then
    ⟨⟨7/10, "Some serials verified. Non-matching serials detected."⟩, verified_serials⟩
  else
    ⟨⟨0, "No detected serial numbers matched the ALMM approved list."⟩, verified_serials⟩

/-- `equipment_verification` (`equipment_check.py` lines 102-123): a missing
serial photo (`FileNotFoundError`) is caught and degraded to score 0.0; OCR
errors are caught inside `extract_serials_with_ocr`, whose output is the
`ocrSerials` input here. -/
def equipment_verification (serialPhotoFound : Bool) (ocrSerials : List String) :
    Except Fault EquipmentCheckResult :=
  if serialPhotoFound = false then
    Except.ok ⟨0, "Serial number photo not found.", [], []⟩
  else
    let cv := check_almm_list ocrSerials
    Except.ok ⟨cv.1.score, cv.1.details, ocrSerials, cv.2⟩

/-! ## Weighted scoring aggregator (`ml_pipeline.py` lines 99-109) -/

/-- The four check scores entering the aggregator. -/
structure Scores where
  gps : ℚ
  shadow : ℚ
  satellite : ℚ
  equipment : ℚ
deriving DecidableEq

/-- Line 106: `total_score = sum(score * weight for score, weight in scores)`. -/
def totalScore (s : Scores) (w : WeightConfig) : ℚ :=
  s.gps * w.wGps + s.shadow * w.wShadow + s.satellite * w.wSatellite + s.equipment * w.wEquipment

/-- Line 107: `total_weight = sum(weight for _, weight in scores)`. -/
def totalWeight (w : WeightConfig) : ℚ :=
  w.wGps + w.wShadow + w.wSatellite + w.wEquipment

/-- Line 109: `final_confidence = total_score / total_weight if total_weight > 0 else 0.0`. -/
def finalConfidence (s : Scores) (w : WeightConfig) : ℚ :=
  if 0 < totalWeight w then totalScore s w / totalWeight w else 0

/-- Python `round(x, 4)` (`ml_pipeline.py` line 129).  Python rounds half to
even on floats while `round` here rounds half away from the floor; the two
differ only at exact ties, which no claim below touches. -/
def round4 (x : ℚ) : ℚ := ((round (x * 10000) : ℤ) : ℚ) / 10000

/-! ## Decision engine (`ml_pipeline.py` lines 113-120) -/

/-- The triple assigned by the decision engine. -/
structure DecisionOut where
  decision : String
  final_status : String
  reasoning : String
deriving DecidableEq

/-- The decision engine: defaults to manual review, then the
`if final_confidence >= THRESHOLD_AUTO_APPROVE / elif < THRESHOLD_MANUAL_REVIEW`
ladder of lines 115-120. -/
def decisionCore (conf approve_threshold review_threshold : ℚ) : DecisionOut :=
  if approve_threshold ≤ conf then
    ⟨"Auto-approve", "approved", "High confidence score, all major checks passed verification."⟩
  else if conf < review_threshold then
    ⟨"Auto-reject", "rejected", "Low confidence score due to major failures in multiple checks."⟩
  else
    ⟨"manual_review", "manual_review", "Flagged for manual review."⟩

/-! ## Persistence (`ml_pipeline.py` lines 134-143) -/

/-- The final update of lines 140-143 on a single-document store: the filter
of `update_one` matches on the identifier alone and `$set` writes the new
status and the report together.  There is no condition on the document's
prior status. -/
def finalUpdate (appId : String) (final_status : String) (report : VerificationReport)
    (doc : AppDoc) : AppDoc :=
  if doc.id = appId then {doc with status := final_status, report := some report} else doc

/-- Modelled from the spec: the compare-and-set update of spec section 4.6 —
an update keyed by application identity AND conditioned on the expected
prior status, writing nothing when the guard fails.  Stated only to compare
against the `finalUpdate` actually performed by the source. -/
def finalUpdateCAS (appId expected_status final_status : String)
    (report : VerificationReport) (doc : AppDoc) : AppDoc :=
  if doc.id = appId ∧ doc.status = expected_status then
    {doc with status := final_status, report := some report}
  else doc

/-! ## The orchestrator (`ml_pipeline.py` lines 56-159) -/

/-- The external collaborators of one pipeline run — inputs the orchestrator
does not control.  `widePhotoFound`/`serialPhotoFound`: presence of the two
photos in storage; `solposOk`: the solar-position library call succeeds;
`preImageFetched`/`postImageFetched`: `get_sentinel_image` returned data
(`false` covers a timeout or any other fetch failure, all caught inside the
fetch); `yoloPre`/`yoloPost`: outcome of `run_yolo_detection` on each image;
`ocrSerials`: output of `extract_serials_with_ocr`. -/
structure World where
  widePhotoFound : Bool
  serialPhotoFound : Bool
  exifCaptureTime : String
  solposOk : Bool
  expectedAzimuth : ℚ
  expectedElevation : ℚ
  shadowNoise : ℚ
  preImageFetched : Bool
  postImageFetched : Bool
  yoloPre : Except Fault (ℕ × ℚ × ℚ)
  yoloPost : Except Fault (ℕ × ℚ × ℚ)
  ocrSerials : List String

/-- Lines 79-94: the four check invocations in source order (the GPS check
feeds the shadow check; the wide rooftop photo is shared by both).  A
check's uncaught exception aborts the sequence, exactly as an uncaught
Python exception would. -/
def runChecks (w : World) (doc : AppDoc) :
    Except Fault (MetricScore × ShadowAnalysisResult × SatelliteAnalysisResult × EquipmentCheckResult) := do
  let (gps_metric, _detected_lat, _detected_lon, _capture_time) ←
    gps_check w.widePhotoFound doc.registered_lat doc.registered_lon w.exifCaptureTime 100
  let shadow_result ←
    shadow_analysis_check w.solposOk w.expectedAzimuth w.expectedElevation
      w.widePhotoFound w.shadowNoise
  let satellite_result ←
    satellite_verification w.preImageFetched w.postImageFetched
      w.yoloPre w.yoloPost doc.declared_panel_count
  let equipment_result ← equipment_verification w.serialPhotoFound w.ocrSerials
  Except.ok (gps_metric, shadow_result, satellite_result, equipment_result)

/-- Lines 96-159 after the checks: aggregation at the configured weights,
decision on the UNROUNDED confidence (line 115), report assembly with
`confidence_score = round(final_confidence, 4)` (line 129), and the final
status-plus-report update (the energy-prediction field and the best-effort
notification are elided). -/
def finishRun (appId : String) (gps_metric : MetricScore) (shadow_result : ShadowAnalysisResult)
    (satellite_result : SatelliteAnalysisResult) (equipment_result : EquipmentCheckResult)
    (doc : AppDoc) : AppDoc :=
  let s : Scores :=
    ⟨gps_metric.score, shadow_result.score, satellite_result.score, equipment_result.score⟩
  let final_confidence := finalConfidence s settingsWeights
  let d := decisionCore final_confidence THRESHOLD_AUTO_APPROVE THRESHOLD_MANUAL_REVIEW
  let report : VerificationReport :=
    ⟨gps_metric, shadow_result, satellite_result, equipment_result,
      round4 final_confidence, d.decision, d.reasoning⟩
  finalUpdate appId d.final_status report doc

/-- `run_verification_pipeline` (lines 56-159): first sets the status to
`verifying` (lines 64-68), then runs the checks and finishes the run.  The
body has no try/except, so a check's uncaught exception ends the background
task with the document still in `verifying` and nothing else written. -/
def run_verification_pipeline (w : World) (appId : String) (doc : AppDoc) : AppDoc :=
  let d1 := if doc.id = appId then {doc with status := "verifying"} else doc
  match runChecks w d1 with
  | Except.error _ => d1
  | Except.ok (g, sh, sat, e) => finishRun appId g sh sat e d1

/-- The uncaught exception, if any, escaping `run_verification_pipeline`. -/
def pipelineFault (w : World) (appId : String) (doc : AppDoc) : Option Fault :=
  match runChecks w (if doc.id = appId then {doc with status := "verifying"} else doc) with
  | Except.error f => some f
  | Except.ok _ => none

/-! ## Verification-submission endpoint (`backend/api/endpoints/applications.py`) -/

/-- The HTTP error outcomes of `submit_verification`. -/
inductive ApiError
  | badRequest
  | notFound
  | conflict
  | internalServerError
deriving DecidableEq

/-- `submit_verification` (lines 73-166), for a document already fetched and
owned by the caller: the status guard of line 111
(`not in ["initial_application", "rejected"]` raises 409), then file saving
(500 on failure), then the update that stores the measured coordinates and
sets `status` to `verifying`. -/
def submit_verification (doc : AppDoc) (registered_lat registered_lon : ℚ)
    (filesSaved : Bool) : Except ApiError AppDoc :=
  if ¬ (doc.status = "initial_application" ∨ doc.status = "rejected") then
    Except.error ApiError.conflict
  else if filesSaved = false then
    Except.error ApiError.internalServerError
  else
    Except.ok {doc with status := "verifying",
                        registered_lat := registered_lat, registered_lon := registered_lon}

/-! ## Deliverables variant of the satellite check
(`deliverables/pipeline_code/services/satellite_analysis.py`) -/

/-- The count-comparison scoring rule of the deliverables satellite check
(lines 305-322); its second branch is written `pre_count > post_count`. -/
def deliverables_satellite_scoring (pre_count post_count declared_panel_count : ℕ) : ℚ :=
  if post_count = 0 then 0
  else if post_count < pre_count then 1/10
  else
    let count_diff := ((post_count : ℤ) - (declared_panel_count : ℤ)).natAbs
    if count_diff ≤ 2 then 1
    else if count_diff ≤ 10 then 8/10
    else 5/10

/-- Line 325: `final_score = score * settings.WEIGHT_SATELLITE_ANALYSIS` —
the value stored in the `score` field of the `SatelliteAnalysisResult`
returned by the deliverables variant. -/
def deliverables_satellite_final_score (pre_count post_count declared_panel_count : ℕ) : ℚ :=
  deliverables_satellite_scoring pre_count post_count declared_panel_count
    * WEIGHT_SATELLITE_ANALYSIS

/-! ## Concrete test fixtures -/

/-- An application ready for verification. -/
def doc0 : AppDoc := ⟨"app1", 19, 73, 10, "initial_application", none⟩

/-- A run in which every collaborator behaves: photos present, solar position
computed, both satellite images fetched, YOLO sees 0 panels before and 10
after against 10 declared, OCR reads one approved serial. -/
def goodWorld : World :=
  ⟨true, true, "2024-06-01T10:00:00", true, 180, 45, 2, true, true,
   Except.ok (0, 0, 0), Except.ok (10, 9/10, 25), ["SERIAL-123456"]⟩

/-- The wide rooftop photo is missing from storage. -/
def missingPhotoWorld : World := {goodWorld with widePhotoFound := false}

/-- YOLO inference raises on the post-installation image. -/
def yoloFaultWorld : World := {goodWorld with yoloPost := Except.error Fault.yoloFault}

/-- The post-installation satellite fetch fails (timeout or any other error
caught inside `get_sentinel_image`). -/
def fetchTimeoutWorld : World := {goodWorld with postImageFetched := false}

/-- The four check scores of a `runChecks` outcome, when it completed. -/
def checkScoresOf
    (r : Except Fault (MetricScore × ShadowAnalysisResult × SatelliteAnalysisResult × EquipmentCheckResult)) :
    Option (ℚ × ℚ × ℚ × ℚ) :=
  match r with
  | Except.error _ => none
  | Except.ok (g, sh, sat, e) => some (g.score, sh.score, sat.score, e.score)

/-- The satellite `details` string of a `runChecks` outcome, when it completed. -/
def satelliteDetailsOf
    (r : Except Fault (MetricScore × ShadowAnalysisResult × SatelliteAnalysisResult × EquipmentCheckResult)) :
    Option String :=
  match r with
  | Except.error _ => none
  | Except.ok (_, _, sat, _) => some sat.details

/-- A terminal report persisted by an earlier, already finished run. -/
def earlierReport : VerificationReport :=
  ⟨⟨1, "GPS location verified."⟩, ⟨1, "Shadow angle matches solar position.", none, none, none⟩,
   ⟨1, "Panel count verified.", 0, 10, 9/10⟩,
   ⟨1, "All detected serial numbers match the ALMM approved list.", ["SERIAL-123456"], ["SERIAL-123456"]⟩,
   1, "Auto-approve", "High confidence score, all major checks passed verification."⟩

/-- The report a later, slower concurrent run tries to persist. -/
def laterReport : VerificationReport :=
  ⟨⟨0, "GPS mismatch detected."⟩, ⟨0, "Failed to calculate expected solar position.", none, none, none⟩,
   ⟨0, "YOLO did not detect any panels in the post-installation image.", 0, 0, 0⟩,
   ⟨0, "No detected serial numbers matched the ALMM approved list.", [], []⟩,
   0, "Auto-reject", "Low confidence score due to major failures in multiple checks."⟩

/-- The application after a concurrent run already approved it. -/
def approvedDoc : AppDoc := ⟨"app1", 19, 73, 10, "approved", some earlierReport⟩

/-- An application created by the legacy single-step flow. -/
def submittedDoc : AppDoc := ⟨"app2", 18, 72, 8, "submitted", none⟩

/-! ## Claims -/

/-- Claim C1 (the spec's guaranteed-terminal-state behavior, which the source
code lacks): with the wide rooftop photo missing from storage, `gps_check`
takes its `FileNotFoundError` branch, the 4-way unpacking at the call site
raises `ValueError`, and — `run_verification_pipeline` having no top-level
handler — the run ends with the application still in `verifying` and no
report persisted.  No `manual_review` outcome with reasoning
`"pipeline error"` is ever produced. -/
theorem c1_unhandled_fault_leaves_verifying :
    pipelineFault missingPhotoWorld "app1" doc0 = some Fault.unpackValueError ∧
    (run_verification_pipeline missingPhotoWorld "app1" doc0).status = "verifying" ∧
    (run_verification_pipeline missingPhotoWorld "app1" doc0).report = none := by
  decide

/-- Claim C2: the fault-isolation boundary actually present in the source.
A failure signalled through a provider's own failure channel — here the
post-installation satellite fetch failing (a timeout is caught inside
`get_sentinel_image`) — is degraded to a satellite result with score 0.0
and a reasoning naming the cause, while the other three scores equal those
of the fully successful run.  But an unexpected internal fault (YOLO
inference raising) is NOT converted: it escapes `runChecks`, no satellite
`CheckResult` is produced at all, and the run is left in `verifying`. -/
theorem c2_provider_fault_isolation_boundary :
    pipelineFault yoloFaultWorld "app1" doc0 = some Fault.yoloFault ∧
    (run_verification_pipeline yoloFaultWorld "app1" doc0).status = "verifying" ∧
    (run_verification_pipeline yoloFaultWorld "app1" doc0).report = none ∧
    checkScoresOf (runChecks fetchTimeoutWorld doc0) = some (1, 1, 0, 1) ∧
    checkScoresOf (runChecks goodWorld doc0) = some (1, 1, 1, 1) ∧
    satelliteDetailsOf (runChecks fetchTimeoutWorld doc0) =
      some "Failed to fetch post-installation satellite image." := by
  norm_num [pipelineFault, run_verification_pipeline, runChecks, checkScoresOf,
    satelliteDetailsOf, gps_check, shadow_analysis_check, satellite_verification,
    satellite_scoring, equipment_verification, check_almm_list, ALMM_APPROVED_LIST,
    yoloFaultWorld, fetchTimeoutWorld, goodWorld, doc0,
    Except.instMonad, Except.bind, abs_lt]

/-- Claim C9 (single application of the category weight, which the
deliverables variant violates): with 5 panels detected pre-install, 10
post-install and 10 declared, the raw scoring-rule value is 1.0.  The
backend check stores the raw value in its result's score field, while the
deliverables variant stores it multiplied by the satellite category weight,
yielding 0.3 — not the raw value. -/
theorem c9_satellite_weight_applied_twice :
    (satellite_scoring 5 10 10).1 = 1 ∧
    satellite_verification true true (Except.ok (5, 0, 0)) (Except.ok (10, 9/10, 25)) 10 =
      Except.ok ⟨1, "Panel count verified.", 5, 10, 9/10⟩ ∧
    deliverables_satellite_scoring 5 10 10 = 1 ∧
    deliverables_satellite_final_score 5 10 10 = 3/10 ∧
    (3 : ℚ)/10 ≠ 1 := by
  norm_num [satellite_scoring, satellite_verification, deliverables_satellite_scoring,
    deliverables_satellite_final_score, WEIGHT_SATELLITE_ANALYSIS]

/-- Claim C10: the division in the aggregator is guarded — whenever the total
of the configured weights is zero or negative, `finalConfidence` is 0.0 for
every set of scores, with no division performed. -/
theorem c10_zero_total_weight_yields_zero (s : Scores) (w : WeightConfig)
    (h : totalWeight w ≤ 0) : finalConfidence s w = 0 := by
  unfold finalConfidence
  rw [if_neg (not_lt.mpr h)]

/-- Witness for C10 at the all-zero weight configuration. -/
theorem c10_zero_total_weight_yields_zero_witness :
    totalWeight ⟨0, 0, 0, 0⟩ ≤ 0 ∧ finalConfidence ⟨1, 1, 1, 1⟩ ⟨0, 0, 0, 0⟩ = 0 :=
  ⟨by norm_num [totalWeight],
   c10_zero_total_weight_yields_zero ⟨1, 1, 1, 1⟩ ⟨0, 0, 0, 0⟩ (by norm_num [totalWeight])⟩

/-- Claim C6 counterexample: the claim admits the legacy status `submitted`
as a valid entry point, but the guard of `submit_verification` line 111
allows only `initial_application` and `rejected`, so a `submitted`
application is rejected with a 409 conflict instead of succeeding. -/
theorem c6_counterexample :
    submittedDoc.status = "submitted" ∧
    submit_verification submittedDoc 18 72 true = Except.error ApiError.conflict := by
  exact ⟨rfl, by simp [submit_verification, submittedDoc]⟩

/-- Claim C6 amended: the verification submission succeeds (moving the status
to `verifying` and storing the measured coordinates) exactly when the
current status is `initial_application` or `rejected`; for every other
status — the legacy `submitted` included — it fails with a conflict error
before any write, leaving the document unchanged. -/
theorem c6_amended_guard (doc : AppDoc) (lat lon : ℚ) (filesSaved : Bool) :
    ((doc.status = "initial_application" ∨ doc.status = "rejected") →
      submit_verification doc lat lon true =
        Except.ok {doc with status := "verifying",
                            registered_lat := lat, registered_lon := lon}) ∧
    (¬ (doc.status = "initial_application" ∨ doc.status = "rejected") →
      submit_verification doc lat lon filesSaved = Except.error ApiError.conflict) := by
  constructor
  · intro h
    simp [submit_verification, not_not_intro h]
  · intro h
    simp [submit_verification, h]

/-- Witness for C6: re-submission succeeds from `initial_application` and is
refused from `approved`. -/
theorem c6_amended_guard_witness :
    submit_verification doc0 19 73 true =
      Except.ok {doc0 with status := "verifying", registered_lat := 19, registered_lon := 73} ∧
    submit_verification approvedDoc 19 73 true = Except.error ApiError.conflict :=
  ⟨(c6_amended_guard doc0 19 73 true).1 (Or.inl rfl),
   (c6_amended_guard approvedDoc 19 73 true).2 (by decide)⟩

/-- Claim C3 counterexample: the final update of `ml_pipeline.py` lines
140-143 is keyed by the identifier alone, with no condition on the prior
status.  On a document a concurrent run has already moved to `approved`,
the claim says the update writes nothing; the update as coded overwrites
the status (and the persisted report) anyway.  The compare-and-set variant
modelled from the spec would indeed have left the document unchanged. -/
theorem c3_counterexample :
    approvedDoc.status ≠ "verifying" ∧
    finalUpdate "app1" "rejected" laterReport approvedDoc ≠ approvedDoc ∧
    (finalUpdate "app1" "rejected" laterReport approvedDoc).status = "rejected" ∧
    (finalUpdate "app1" "rejected" laterReport approvedDoc).report = some laterReport ∧
    finalUpdateCAS "app1" "verifying" "rejected" laterReport approvedDoc = approvedDoc := by
  refine ⟨by simp [approvedDoc], ?_, by simp [finalUpdate, approvedDoc],
    by simp [finalUpdate, approvedDoc], by simp [finalUpdateCAS, approvedDoc]⟩
  simp [finalUpdate, approvedDoc, laterReport, earlierReport]

/-- Claim C3 amended: the final persistence step does write the report and
the new terminal status together in one single-document update keyed by the
application identity — but it carries no condition on the expected prior
status, so it applies to the matching document whatever its current status,
and a later-finishing concurrent run can overwrite an earlier run's
outcome. -/
theorem c3_amended_update_by_id_only (appId final_status : String)
    (report : VerificationReport) (doc : AppDoc) :
    (doc.id = appId →
      finalUpdate appId final_status report doc =
        {doc with status := final_status, report := some report}) ∧
    (doc.id ≠ appId → finalUpdate appId final_status report doc = doc) := by
  constructor
  · intro h
    simp [finalUpdate, h]
  · intro h
    simp [finalUpdate, h]

/-- Witness for C3 amended: the update applied to the matching document. -/
theorem c3_amended_update_by_id_only_witness :
    finalUpdate "app1" "rejected" laterReport approvedDoc =
      {approvedDoc with status := "rejected", report := some laterReport} :=
  (c3_amended_update_by_id_only "app1" "rejected" laterReport approvedDoc).1 rfl

/-- Claim C5: for configured thresholds with `approve_threshold >
review_threshold`, the decision engine yields Auto-approve/`approved` when
the confidence is at least the approve threshold (inclusive), Auto-reject/
`rejected` when it is strictly below the review threshold, and
manual_review between the two (the review threshold itself inclusive). -/
theorem c5_decision_boundaries (conf approve_threshold review_threshold : ℚ)
    (h : review_threshold < approve_threshold) :
    (approve_threshold ≤ conf →
      (decisionCore conf approve_threshold review_threshold).final_status = "approved" ∧
      (decisionCore conf approve_threshold review_threshold).decision = "Auto-approve") ∧
    (conf < review_threshold →
      (decisionCore conf approve_threshold review_threshold).final_status = "rejected" ∧
      (decisionCore conf approve_threshold review_threshold).decision = "Auto-reject") ∧
    (review_threshold ≤ conf → conf < approve_threshold →
      (decisionCore conf approve_threshold review_threshold).final_status = "manual_review" ∧
      (decisionCore conf approve_threshold review_threshold).decision = "manual_review") := by
  refine ⟨fun h1 => ?_, fun h1 => ?_, fun h1 h2 => ?_⟩
  · simp [decisionCore, h1]
  · have hna : ¬ approve_threshold ≤ conf := not_le.mpr (h1.trans h)
    simp [decisionCore, hna, h1]
  · have hna : ¬ approve_threshold ≤ conf := not_le.mpr h2
    have hnr : ¬ conf < review_threshold := not_lt.mpr h1
    simp [decisionCore, hna, hnr]

/-- Witness for C5 at the configured thresholds: confidence exactly 0.85
approves, confidence exactly 0.60 goes to manual review. -/
theorem c5_decision_boundaries_witness :
    THRESHOLD_MANUAL_REVIEW < THRESHOLD_AUTO_APPROVE ∧
    (decisionCore THRESHOLD_AUTO_APPROVE THRESHOLD_AUTO_APPROVE THRESHOLD_MANUAL_REVIEW).final_status
      = "approved" ∧
    (decisionCore THRESHOLD_MANUAL_REVIEW THRESHOLD_AUTO_APPROVE THRESHOLD_MANUAL_REVIEW).final_status
      = "manual_review" :=
  ⟨by norm_num [THRESHOLD_MANUAL_REVIEW, THRESHOLD_AUTO_APPROVE],
   ((c5_decision_boundaries THRESHOLD_AUTO_APPROVE THRESHOLD_AUTO_APPROVE THRESHOLD_MANUAL_REVIEW
      (by norm_num [THRESHOLD_MANUAL_REVIEW, THRESHOLD_AUTO_APPROVE])).1 le_rfl).1,
   ((c5_decision_boundaries THRESHOLD_MANUAL_REVIEW THRESHOLD_AUTO_APPROVE THRESHOLD_MANUAL_REVIEW
      (by norm_num [THRESHOLD_MANUAL_REVIEW, THRESHOLD_AUTO_APPROVE])).2.2 le_rfl
      (by norm_num [THRESHOLD_MANUAL_REVIEW, THRESHOLD_AUTO_APPROVE])).1⟩

/-- Claim C7: monotonicity of the aggregator.  For non-negative weights with
positive total (the `WeightConfig` invariant of the data model), raising
any check scores pointwise — in particular raising a single check's score
while holding the other three fixed — never decreases the aggregated
confidence. -/
theorem c7_aggregator_monotone (s t : Scores) (w : WeightConfig)
    (hg : 0 ≤ w.wGps) (hsh : 0 ≤ w.wShadow) (hsat : 0 ≤ w.wSatellite) (he : 0 ≤ w.wEquipment)
    (hpos : 0 < totalWeight w)
    (h1 : s.gps ≤ t.gps) (h2 : s.shadow ≤ t.shadow)
    (h3 : s.satellite ≤ t.satellite) (h4 : s.equipment ≤ t.equipment) :
    finalConfidence s w ≤ finalConfidence t w := by
  unfold finalConfidence
  rw [if_pos hpos, if_pos hpos]
  have hN : totalScore s w ≤ totalScore t w := by
    unfold totalScore
    have e1 := mul_le_mul_of_nonneg_right h1 hg
    have e2 := mul_le_mul_of_nonneg_right h2 hsh
    have e3 := mul_le_mul_of_nonneg_right h3 hsat
    have e4 := mul_le_mul_of_nonneg_right h4 he
    linarith
  rw [div_le_div_iff₀ hpos hpos]
  exact mul_le_mul_of_nonneg_right hN hpos.le

/-- Witness for C7 at the configured weights: raising the GPS score from 0
to 1 does not decrease the confidence. -/
theorem c7_aggregator_monotone_witness :
    (0 < totalWeight settingsWeights) ∧
    finalConfidence ⟨0, 1, 1, 1⟩ settingsWeights ≤ finalConfidence ⟨1, 1, 1, 1⟩ settingsWeights :=
  ⟨by norm_num [totalWeight, settingsWeights, WEIGHT_GPS_MATCH, WEIGHT_SHADOW_ANALYSIS,
      WEIGHT_SATELLITE_ANALYSIS, WEIGHT_EQUIPMENT_CHECK],
   c7_aggregator_monotone ⟨0, 1, 1, 1⟩ ⟨1, 1, 1, 1⟩ settingsWeights
    (by norm_num [settingsWeights, WEIGHT_GPS_MATCH])
    (by norm_num [settingsWeights, WEIGHT_SHADOW_ANALYSIS])
    (by norm_num [settingsWeights, WEIGHT_SATELLITE_ANALYSIS])
    (by norm_num [settingsWeights, WEIGHT_EQUIPMENT_CHECK])
    (by norm_num [totalWeight, settingsWeights, WEIGHT_GPS_MATCH, WEIGHT_SHADOW_ANALYSIS,
      WEIGHT_SATELLITE_ANALYSIS, WEIGHT_EQUIPMENT_CHECK])
    (by norm_num) (by norm_num) (by norm_num) (by norm_num)⟩

/-- Claim C8: for non-negative weights with positive total and the four
scores each in the unit interval, the aggregated confidence lies in the
unit interval. -/
theorem c8_confidence_bounds (s : Scores) (w : WeightConfig)
    (hg : 0 ≤ w.wGps) (hsh : 0 ≤ w.wShadow) (hsat : 0 ≤ w.wSatellite) (he : 0 ≤ w.wEquipment)
    (hpos : 0 < totalWeight w)
    (h1 : 0 ≤ s.gps) (h2 : s.gps ≤ 1) (h3 : 0 ≤ s.shadow) (h4 : s.shadow ≤ 1)
    (h5 : 0 ≤ s.satellite) (h6 : s.satellite ≤ 1)
    (h7 : 0 ≤ s.equipment) (h8 : s.equipment ≤ 1) :
    0 ≤ finalConfidence s w ∧ finalConfidence s w ≤ 1 := by
  unfold finalConfidence
  rw [if_pos hpos]
  constructor
  · apply div_nonneg _ hpos.le
    unfold totalScore
    have e1 := mul_nonneg h1 hg
    have e2 := mul_nonneg h3 hsh
    have e3 := mul_nonneg h5 hsat
    have e4 := mul_nonneg h7 he
    linarith
  · rw [div_le_one hpos]
    unfold totalScore totalWeight
    have e1 := mul_le_mul_of_nonneg_right h2 hg
    have e2 := mul_le_mul_of_nonneg_right h4 hsh
    have e3 := mul_le_mul_of_nonneg_right h6 hsat
    have e4 := mul_le_mul_of_nonneg_right h8 he
    linarith

/-- Witness for C8 at the configured weights and the degraded-satellite
score vector. -/
theorem c8_confidence_bounds_witness :
    (0 < totalWeight settingsWeights) ∧
    0 ≤ finalConfidence ⟨1, 7/10, 0, 1⟩ settingsWeights ∧
    finalConfidence ⟨1, 7/10, 0, 1⟩ settingsWeights ≤ 1 :=
  ⟨by norm_num [totalWeight, settingsWeights, WEIGHT_GPS_MATCH, WEIGHT_SHADOW_ANALYSIS,
      WEIGHT_SATELLITE_ANALYSIS, WEIGHT_EQUIPMENT_CHECK],
   (c8_confidence_bounds ⟨1, 7/10, 0, 1⟩ settingsWeights
    (by norm_num [settingsWeights, WEIGHT_GPS_MATCH])
    (by norm_num [settingsWeights, WEIGHT_SHADOW_ANALYSIS])
    (by norm_num [settingsWeights, WEIGHT_SATELLITE_ANALYSIS])
    (by norm_num [settingsWeights, WEIGHT_EQUIPMENT_CHECK])
    (by norm_num [totalWeight, settingsWeights, WEIGHT_GPS_MATCH, WEIGHT_SHADOW_ANALYSIS,
      WEIGHT_SATELLITE_ANALYSIS, WEIGHT_EQUIPMENT_CHECK])
    (by norm_num) (by norm_num) (by norm_num) (by norm_num)
    (by norm_num) (by norm_num) (by norm_num) (by norm_num)).1,
   (c8_confidence_bounds ⟨1, 7/10, 0, 1⟩ settingsWeights
    (by norm_num [settingsWeights, WEIGHT_GPS_MATCH])
    (by norm_num [settingsWeights, WEIGHT_SHADOW_ANALYSIS])
    (by norm_num [settingsWeights, WEIGHT_SATELLITE_ANALYSIS])
    (by norm_num [settingsWeights, WEIGHT_EQUIPMENT_CHECK])
    (by norm_num [totalWeight, settingsWeights, WEIGHT_GPS_MATCH, WEIGHT_SHADOW_ANALYSIS,
      WEIGHT_SATELLITE_ANALYSIS, WEIGHT_EQUIPMENT_CHECK])
    (by norm_num) (by norm_num) (by norm_num) (by norm_num)
    (by norm_num) (by norm_num) (by norm_num) (by norm_num)).2⟩

/-- The score vector of the C4 counterexample. -/
def c4Scores : Scores := ⟨1, 1, 1, 2499/10000⟩

/-- Claim C4 counterexample: at scores (1, 1, 1, 0.2499) and the configured
weights the aggregated confidence is 0.84998.  The decision engine of
`ml_pipeline.py` line 115 compares this UNROUNDED value and yields
`manual_review`, whereas comparing the value rounded to 4 decimal places —
as the claim asserts — would give 0.85 and `approved`.  Rounding is applied
only to the persisted `confidence_score` (line 129). -/
theorem c4_counterexample :
    finalConfidence c4Scores settingsWeights = 42499/50000 ∧
    round4 (finalConfidence c4Scores settingsWeights) = 85/100 ∧
    (decisionCore (finalConfidence c4Scores settingsWeights)
        THRESHOLD_AUTO_APPROVE THRESHOLD_MANUAL_REVIEW).final_status = "manual_review" ∧
    (decisionCore (round4 (finalConfidence c4Scores settingsWeights))
        THRESHOLD_AUTO_APPROVE THRESHOLD_MANUAL_REVIEW).final_status = "approved" := by
  have hconf : finalConfidence c4Scores settingsWeights = 42499/50000 := by
    norm_num [finalConfidence, totalScore, totalWeight, c4Scores, settingsWeights,
      WEIGHT_GPS_MATCH, WEIGHT_SHADOW_ANALYSIS, WEIGHT_SATELLITE_ANALYSIS,
      WEIGHT_EQUIPMENT_CHECK]
  have hround : round4 (finalConfidence c4Scores settingsWeights) = 85/100 := by
    rw [hconf]
    norm_num [round4, round_eq]
  refine ⟨hconf, hround, ?_, ?_⟩
  · rw [hconf]
    norm_num [decisionCore, THRESHOLD_AUTO_APPROVE, THRESHOLD_MANUAL_REVIEW]
  · rw [hround]
    norm_num [decisionCore, THRESHOLD_AUTO_APPROVE, THRESHOLD_MANUAL_REVIEW]

/-- Claim C4 amended: with positive total weight the aggregated confidence
equals the weighted sum of the four check scores divided by the sum of the
four weights; a degraded check contributes 0.0 to the numerator while its
weight stays in the denominator; the persisted `confidence_score` is the
confidence rounded to 4 decimal places (an integer multiple of 1/10000,
within 1/20000 of the exact value) — but the terminal status is decided
from the UNROUNDED confidence.  The aggregation is a pure function, so
determinism holds by construction. -/
theorem c4_amended_aggregation (s : Scores) (w : WeightConfig)
    (gps_metric : MetricScore) (shadow_result : ShadowAnalysisResult)
    (satellite_result : SatelliteAnalysisResult) (equipment_result : EquipmentCheckResult)
    (appId : String) (doc : AppDoc)
    (hpos : 0 < totalWeight w) (hid : doc.id = appId) :
    finalConfidence s w = totalScore s w / totalWeight w ∧
    finalConfidence ⟨s.gps, s.shadow, 0, s.equipment⟩ w =
      (s.gps * w.wGps + s.shadow * w.wShadow + s.equipment * w.wEquipment) / totalWeight w ∧
    (round4 (finalConfidence s w) * 10000).den = 1 ∧
    |round4 (finalConfidence s w) - finalConfidence s w| ≤ 1/20000 ∧
    (finishRun appId gps_metric shadow_result satellite_result equipment_result doc).report =
      some ⟨gps_metric, shadow_result, satellite_result, equipment_result,
        round4 (finalConfidence ⟨gps_metric.score, shadow_result.score,
          satellite_result.score, equipment_result.score⟩ settingsWeights),
        (decisionCore (finalConfidence ⟨gps_metric.score, shadow_result.score,
          satellite_result.score, equipment_result.score⟩ settingsWeights)
          THRESHOLD_AUTO_APPROVE THRESHOLD_MANUAL_REVIEW).decision,
        (decisionCore (finalConfidence ⟨gps_metric.score, shadow_result.score,
          satellite_result.score, equipment_result.score⟩ settingsWeights)
          THRESHOLD_AUTO_APPROVE THRESHOLD_MANUAL_REVIEW).reasoning⟩ ∧
    (finishRun appId gps_metric shadow_result satellite_result equipment_result doc).status =
      (decisionCore (finalConfidence ⟨gps_metric.score, shadow_result.score,
        satellite_result.score, equipment_result.score⟩ settingsWeights)
        THRESHOLD_AUTO_APPROVE THRESHOLD_MANUAL_REVIEW).final_status := by
  refine ⟨?_, ?_, ?_, ?_, ?_, ?_⟩
  · unfold finalConfidence
    rw [if_pos hpos]
  · unfold finalConfidence
    rw [if_pos hpos]
    unfold totalScore
    ring_nf
  · have h : round4 (finalConfidence s w) * 10000 =
        ((round (finalConfidence s w * 10000) : ℤ) : ℚ) := by
      unfold round4
      field_simp
    rw [h, Rat.den_intCast]
  · unfold round4
    have habs := abs_sub_round (finalConfidence s w * 10000)
    have heq : ((round (finalConfidence s w * 10000) : ℤ) : ℚ) / 10000 - finalConfidence s w =
        (((round (finalConfidence s w * 10000) : ℤ) : ℚ) - finalConfidence s w * 10000) / 10000 := by
      ring
    rw [heq, abs_div, abs_of_pos (show (0:ℚ) < 10000 by norm_num),
      div_le_iff₀ (show (0:ℚ) < 10000 by norm_num), abs_sub_comm]
    calc |finalConfidence s w * 10000 - ((round (finalConfidence s w * 10000) : ℤ) : ℚ)| ≤ 1/2 :=
          habs
      _ = 1/20000 * 10000 := by norm_num
  · simp [finishRun, finalUpdate, hid]
  · simp [finishRun, finalUpdate, hid]

/-- Witness for C4 amended at the configured weights. -/
theorem c4_amended_aggregation_witness :
    ((0:ℚ) < totalWeight settingsWeights ∧ doc0.id = "app1") ∧
    finalConfidence c4Scores settingsWeights =
      totalScore c4Scores settingsWeights / totalWeight settingsWeights :=
  ⟨⟨by norm_num [totalWeight, settingsWeights, WEIGHT_GPS_MATCH, WEIGHT_SHADOW_ANALYSIS,
      WEIGHT_SATELLITE_ANALYSIS, WEIGHT_EQUIPMENT_CHECK], rfl⟩,
   (c4_amended_aggregation c4Scores settingsWeights ⟨1, "a"⟩ ⟨1, "b", none, none, none⟩
      ⟨1, "c", 0, 10, 9/10⟩ ⟨1, "d", [], []⟩ "app1" doc0
      (by norm_num [totalWeight, settingsWeights, WEIGHT_GPS_MATCH, WEIGHT_SHADOW_ANALYSIS,
        WEIGHT_SATELLITE_ANALYSIS, WEIGHT_EQUIPMENT_CHECK]) rfl).1⟩
